import Mathlib

/-!
# Delayed-ack packet-finalization middleware: a shallow embedding

This file embeds the `x/delayedack` IBC middleware of the dymension
repository (`IBCMiddleware.OnRecvPacket`, `OnAcknowledgementPacket`,
`OnTimeoutPacket`, `savePacket`) together with the packet-record store it
writes to and the epoch pruner, and proves the specified properties of the
packet-finalization gateway.

External collaborators (the wrapped IBC application, the rollapp registry
lookup `GetValidTransferWithFinalizationInfo`, the EIBC demand order
handler, and the acknowledgement codec) are injected as function-valued
fields of the middleware, exactly as the source receives them as embedded
keepers/modules.  State is passed explicitly: `MWState` carries the
delayed-ack packet store, its pending-by-address index, and an opaque
component `app` standing for all state owned by external collaborators.
A context handed to a collaborator corresponds to giving it the state; the
source's `ctx.CacheContext()` corresponds to discarding the state returned
by the wrapped handler's try-execution.
-/

set_option linter.unusedVariables false

namespace DelayedAck

/-- Event type of a rollapp packet (`commontypes.RollappPacket_Type`). -/
inductive PacketType where
  | ON_RECV
  | ON_ACK
  | ON_TIMEOUT
deriving DecidableEq, Repr

/-- Status of a rollapp packet record (`commontypes.Status`). -/
inductive Status where
  | PENDING
  | FINALIZED
  | REVERTED
deriving DecidableEq, Repr

/-- Relayer identity (`sdk.AccAddress`), raw bytes. -/
abbrev Relayer := List Nat

/-- Transport envelope (`channeltypes.Packet`): route, sequence, opaque data. -/
structure Packet where
  sourcePort : String
  sourceChannel : String
  destinationPort : String
  destinationChannel : String
  sequence : Nat
  data : List Nat
deriving DecidableEq, Repr

/-- Natural key of a packet record: route + sequence + event type
(`p.RollappPacketKey()`; the key definition itself is not in the excerpt,
the spec gives the natural key as
`(sourcePort, sourceChannel, destPort, destChannel, sequence, eventType)`). -/
structure PacketKey where
  sourcePort : String
  sourceChannel : String
  destinationPort : String
  destinationChannel : String
  sequence : Nat
  type : PacketType
deriving DecidableEq, Repr

/-- The central entity (`commontypes.RollappPacket`). -/
structure RollappPacket where
  rollappId : String
  packet : Packet
  acknowledgement : Option (List Nat)
  status : Status
  relayer : Relayer
  proofHeight : Nat
  type : PacketType
deriving DecidableEq, Repr

/-- `p.RollappPacketKey()`: the natural key of the record. -/
def RollappPacket.RollappPacketKey (p : RollappPacket) : PacketKey :=
  { sourcePort := p.packet.sourcePort
    sourceChannel := p.packet.sourceChannel
    destinationPort := p.packet.destinationPort
    destinationChannel := p.packet.destinationChannel
    sequence := p.packet.sequence
    type := p.type }

/-- Parsed transfer metadata with finalization info
(`types.TransferDataWithFinalization`): rollapp identifier, finalization
flag, proof height, the transfer parties, and the opaque fungible-token
packet data. -/
structure TransferData where
  rollapp : String
  finalized : Bool
  proofHeight : Nat
  sender : String
  receiver : String
  fungibleTokenPacketData : List Nat
deriving DecidableEq, Repr

/-- Modelled from the spec: `transfer.IsRollapp()` is missing from the
excerpt; the spec says the fast path applies "if the target is not a
tracked rollapp", i.e. when no rollapp identifier was resolved. -/
def TransferData.IsRollapp (t : TransferData) : Bool :=
  t.rollapp != ""

/-- A synchronous IBC acknowledgement (`exported.Acknowledgement`):
either an acknowledgement produced by an IBC application, or an error
acknowledgement built by the middleware (`uevent.NewErrorAcknowledgement`). -/
inductive Ack where
  | app (success : Bool) (data : List Nat)
  | errAck (msg : String)
deriving DecidableEq, Repr

/-- `ack.Success()`. -/
def Ack.Success : Ack → Bool
  | .app s _ => s
  | .errAck _ => false

/-- Decoded `channeltypes.Acknowledgement`: its `Response` is either a
result payload or an error string. -/
inductive AckResp where
  | result (data : List Nat)
  | err (msg : String)
deriving DecidableEq, Repr

/-- Middleware-visible state: the delayed-ack packet store, the
pending-packet-by-address index, and an opaque component `app` standing
for every other module's state (the wrapped application, the EIBC order
book, ...). -/
structure MWState where
  packets : List RollappPacket
  pendingIndex : List (String × PacketKey)
  app : List Nat
deriving DecidableEq, Repr

/-- The wrapped IBC application (`porttypes.IBCModule`), specified at its
interface boundary: each callback reads and writes state and reports an
acknowledgement (`none` = asynchronous) or an error (`none` = success). -/
structure IBCModule where
  OnRecvPacket : MWState → Packet → Relayer → Option Ack × MWState
  OnAcknowledgementPacket : MWState → Packet → List Nat → Relayer → Option String × MWState
  OnTimeoutPacket : MWState → Packet → Relayer → Option String × MWState

/-- The delayed-ack middleware with its injected collaborators:
the wrapped `IBCModule`, the keeper lookup
`GetValidTransferWithFinalizationInfo` (parses the envelope, resolves the
rollapp and its finalization status; read-only), the EIBC demand order
handler (acts on collaborator state `app` only: per the spec, packet
records are created only by this middleware), and the acknowledgement
codec `Cdc().UnmarshalJSON`. -/
structure IBCMiddleware where
  IBCModule : IBCModule
  GetValidTransferWithFinalizationInfo : Packet → PacketType → Except String TransferData
  EIBCDemandOrderHandler : List Nat → RollappPacket → List Nat → Option String × List Nat
  unmarshalAck : List Nat → Except String AckResp

/-- Modelled from the spec: the keeper's `SetRollappPacket` is missing
from the excerpt; the spec's store operation `put(record)` is an upsert
keyed by the record's natural key. -/
def SetRollappPacket (ps : List RollappPacket) (p : RollappPacket) : List RollappPacket :=
  ps.filter (fun q => !decide (q.RollappPacketKey = p.RollappPacketKey)) ++ [p]

/-- Modelled from the spec: the keeper's `MustSetPendingPacketByAddress`
is missing from the excerpt; the spec's index operation upserts the entry
`(address, key)` into the pending-by-recipient index. -/
def MustSetPendingPacketByAddress (idx : List (String × PacketKey)) (addr : String)
    (k : PacketKey) : List (String × PacketKey) :=
  if (addr, k) ∈ idx then idx else idx ++ [(addr, k)]

/-- `IBCMiddleware.savePacket`: build the PENDING record, insert the
pending-index entry under the receiver (ON_RECV) or the sender
(ON_ACK/ON_TIMEOUT), save the record, and return it. -/
def savePacket (st : MWState) (packet : Packet) (transfer : TransferData) (relayer : Relayer)
    (packetType : PacketType) (ack : Option (List Nat)) : RollappPacket × MWState :=
  let p : RollappPacket :=
    { rollappId := transfer.rollapp
      packet := packet
      acknowledgement := ack
      status := .PENDING
      relayer := relayer
      proofHeight := transfer.proofHeight
      type := packetType }
  let idx :=
    match packetType with
    | .ON_RECV => MustSetPendingPacketByAddress st.pendingIndex transfer.receiver p.RollappPacketKey
    | .ON_ACK => MustSetPendingPacketByAddress st.pendingIndex transfer.sender p.RollappPacketKey
    | .ON_TIMEOUT => MustSetPendingPacketByAddress st.pendingIndex transfer.sender p.RollappPacketKey
  (p, { st with packets := SetRollappPacket st.packets p, pendingIndex := idx })

/-- `IBCMiddleware.OnRecvPacket`: resolve the transfer; bypass when the
target is not a tracked rollapp or already finalized; otherwise try the
wrapped handler on a discardable view, and on success save the PENDING
record and invoke the EIBC demand order handler.  Returns the
acknowledgement (`none` = deferred) and the updated state. -/
def IBCMiddleware.OnRecvPacket (w : IBCMiddleware) (st : MWState) (packet : Packet)
    (relayer : Relayer) : Option Ack × MWState :=
  match w.GetValidTransferWithFinalizationInfo packet .ON_RECV with
  | .error e =>
      (some (.errAck ("delayed ack: get valid transfer with finalization info: " ++ e)), st)
  | .ok transfer =>
      if !transfer.IsRollapp || transfer.finalized then
        w.IBCModule.OnRecvPacket st packet relayer
      else
        match (w.IBCModule.OnRecvPacket st packet relayer).1 with
        | none =>
            (some (.errAck "delayed ack is not supported by the underlying IBC module"), st)
        | some ack =>
            if !ack.Success then (some ack, st)
            else
              let save := savePacket st packet transfer relayer .ON_RECV none
              let eibc := w.EIBCDemandOrderHandler save.2.app save.1 transfer.fungibleTokenPacketData
              match eibc.1 with
              | some e =>
                  (some (.errAck ("EIBC demand order handler: " ++ e)), { save.2 with app := eibc.2 })
              | none => (none, { save.2 with app := eibc.2 })

/-- `IBCMiddleware.OnAcknowledgementPacket`: unmarshal the acknowledgement;
resolve the transfer; bypass when not a tracked rollapp or finalized;
otherwise try the wrapped handler on a discardable view, and on success
save the PENDING record (carrying the raw acknowledgement bytes) and
invoke the EIBC demand order handler only for an error acknowledgement. -/
def IBCMiddleware.OnAcknowledgementPacket (w : IBCMiddleware) (st : MWState) (packet : Packet)
    (acknowledgement : List Nat) (relayer : Relayer) : Option String × MWState :=
  match w.unmarshalAck acknowledgement with
  | .error e =>
      (some ("unmarshal ICS-20 transfer packet acknowledgement: " ++ e), st)
  | .ok ack =>
      match w.GetValidTransferWithFinalizationInfo packet .ON_ACK with
      | .error e => (some e, st)
      | .ok transfer =>
          if !transfer.IsRollapp || transfer.finalized then
            w.IBCModule.OnAcknowledgementPacket st packet acknowledgement relayer
          else
            match (w.IBCModule.OnAcknowledgementPacket st packet acknowledgement relayer).1 with
            | some e => (some e, st)
            | none =>
                let save := savePacket st packet transfer relayer .ON_ACK (some acknowledgement)
                match ack with
                | .err _ =>
                    let eibc :=
                      w.EIBCDemandOrderHandler save.2.app save.1 transfer.fungibleTokenPacketData
                    (eibc.1, { save.2 with app := eibc.2 })
                | .result _ => (none, save.2)

/-- `IBCMiddleware.OnTimeoutPacket`: resolve the transfer; bypass when not
a tracked rollapp or finalized; otherwise try the wrapped handler on a
discardable view, and on success save the PENDING record and always invoke
the EIBC demand order handler, returning its error. -/
def IBCMiddleware.OnTimeoutPacket (w : IBCMiddleware) (st : MWState) (packet : Packet)
    (relayer : Relayer) : Option String × MWState :=
  match w.GetValidTransferWithFinalizationInfo packet .ON_TIMEOUT with
  | .error e => (some e, st)
  | .ok transfer =>
      if !transfer.IsRollapp || transfer.finalized then
        w.IBCModule.OnTimeoutPacket st packet relayer
      else
        match (w.IBCModule.OnTimeoutPacket st packet relayer).1 with
        | some e => (some e, st)
        | none =>
            let save := savePacket st packet transfer relayer .ON_TIMEOUT none
            let eibc := w.EIBCDemandOrderHandler save.2.app save.1 transfer.fungibleTokenPacketData
            (eibc.1, { save.2 with app := eibc.2 })

/-- Delayed-ack module parameters (`types.Params`, fee field omitted). -/
structure Params where
  epochIdentifier : String
  deletePacketsEpochLimit : Nat
deriving DecidableEq, Repr

/-- Modelled from the spec: the pruning sweep over the store (the keeper's
finalized-packet deletion, missing from the excerpt) deletes the first
`limit` FINALIZED records in store-iteration order (which the spec fixes
as ascending proof height, then sequence) and keeps everything else. -/
def deleteFinalizedUpTo : Nat → List RollappPacket → List RollappPacket
  | _, [] => []
  | 0, ps => ps
  | n + 1, p :: ps =>
      if p.status = Status.FINALIZED then deleteFinalizedUpTo n ps
      else p :: deleteFinalizedUpTo (n + 1) ps

/-- Modelled from the spec: the Epoch Pruner's `AfterEpochEnd` hook is
missing from the excerpt (only its test `TestAfterEpochEnd` is present);
per the spec, a tick whose identifier does not match the configured
`epochIdentifier` is a no-op, and a matching tick deletes up to
`deletePacketsEpochLimit` FINALIZED records, oldest proof height first. -/
def AfterEpochEnd (params : Params) (epochIdentifier : String)
    (packets : List RollappPacket) : List RollappPacket :=
  if epochIdentifier = params.epochIdentifier then
    deleteFinalizedUpTo params.deletePacketsEpochLimit packets
  else packets

/-- Number of FINALIZED records in the store. -/
def countFinalized (ps : List RollappPacket) : Nat :=
  (ps.filter (fun p => decide (p.status = Status.FINALIZED))).length

/-! ## Concrete collaborators and states used to evaluate the middleware -/

/-- A concrete transport envelope. -/
def pkt0 : Packet :=
  { sourcePort := "transfer"
    sourceChannel := "channel-0"
    destinationPort := "transfer"
    destinationChannel := "channel-7"
    sequence := 4
    data := [1, 2, 3] }

/-- A concrete transfer to a tracked, non-finalized rollapp. -/
def t0 : TransferData :=
  { rollapp := "rollapp_1"
    finalized := false
    proofHeight := 10
    sender := "alice"
    receiver := "bob"
    fungibleTokenPacketData := [7, 7] }

/-- A concrete transfer whose proof height is already finalized. -/
def tFin : TransferData :=
  { rollapp := "rollapp_1"
    finalized := true
    proofHeight := 2
    sender := "alice"
    receiver := "bob"
    fungibleTokenPacketData := [7, 7] }

/-- A concrete relayer address. -/
def rl0 : Relayer := [5]

/-- A concrete initial state with an empty packet store. -/
def st0 : MWState := { packets := [], pendingIndex := [], app := [0] }

/-- A wrapped application whose three callbacks all fail. -/
def mFail : IBCModule :=
  { OnRecvPacket := fun st _ _ => (some (.app false [9]), { st with app := st.app ++ [1] })
    OnAcknowledgementPacket := fun st _ _ _ => (some "ack failed", { st with app := st.app ++ [2] })
    OnTimeoutPacket := fun st _ _ => (some "timeout failed", { st with app := st.app ++ [3] }) }

/-- A wrapped application whose three callbacks all succeed, writing a
marker into the collaborator state. -/
def mOk : IBCModule :=
  { OnRecvPacket := fun st _ _ => (some (.app true [4]), { st with app := st.app ++ [1] })
    OnAcknowledgementPacket := fun st _ _ _ => (none, { st with app := st.app ++ [2] })
    OnTimeoutPacket := fun st _ _ => (none, { st with app := st.app ++ [3] }) }

/-- A wrapped application whose receive callback returns a nil
(asynchronous) acknowledgement. -/
def mAsync : IBCModule :=
  { OnRecvPacket := fun st _ _ => (none, { st with app := st.app ++ [1] })
    OnAcknowledgementPacket := fun st _ _ _ => (none, { st with app := st.app ++ [2] })
    OnTimeoutPacket := fun st _ _ => (none, { st with app := st.app ++ [3] }) }

/-- A codec that decodes the byte `[0]` as an error acknowledgement and
anything else as a result acknowledgement. -/
def cdc0 : List Nat → Except String AckResp :=
  fun b => if b == [0] then .ok (.err "ack error") else .ok (.result b)

/-- Middleware over a tracked, non-finalized rollapp whose wrapped
handlers fail. -/
def wFail : IBCMiddleware :=
  { IBCModule := mFail
    GetValidTransferWithFinalizationInfo := fun _ _ => .ok t0
    EIBCDemandOrderHandler := fun app _ _ => (none, app ++ [9])
    unmarshalAck := cdc0 }

/-- Middleware over a tracked, non-finalized rollapp whose wrapped
handlers succeed. -/
def wOk : IBCMiddleware :=
  { IBCModule := mOk
    GetValidTransferWithFinalizationInfo := fun _ _ => .ok t0
    EIBCDemandOrderHandler := fun app _ _ => (none, app ++ [9])
    unmarshalAck := cdc0 }

/-- Middleware whose target packet is already finalized (fast path). -/
def wByp : IBCMiddleware :=
  { IBCModule := mOk
    GetValidTransferWithFinalizationInfo := fun _ _ => .ok tFin
    EIBCDemandOrderHandler := fun app _ _ => (none, app ++ [9])
    unmarshalAck := cdc0 }

/-- Middleware over a tracked, non-finalized rollapp whose wrapped receive
handler answers asynchronously (nil acknowledgement). -/
def wAsync : IBCMiddleware :=
  { IBCModule := mAsync
    GetValidTransferWithFinalizationInfo := fun _ _ => .ok t0
    EIBCDemandOrderHandler := fun app _ _ => (none, app ++ [9])
    unmarshalAck := cdc0 }

/-! ## Claims -/

/-- C1: for every inbound, acknowledgement, or timeout packet addressed to
a tracked, non-finalized rollapp, if the wrapped handler's try-execution
reports failure (a failed acknowledgement for OnRecvPacket, a non-nil
error for OnAcknowledgementPacket/OnTimeoutPacket), the callback returns
that failure unchanged and the state — in particular the packet store and
the address index — is unchanged. -/
theorem C1_wrapped_failure_propagated (w : IBCMiddleware) (st : MWState) (packet : Packet)
    (relayer : Relayer) (t : TransferData) (ack : Ack) (ackBytes : List Nat) (aresp : AckResp)
    (eA : String) (eT : String)
    (hgetR : w.GetValidTransferWithFinalizationInfo packet .ON_RECV = .ok t)
    (hgetA : w.GetValidTransferWithFinalizationInfo packet .ON_ACK = .ok t)
    (hgetT : w.GetValidTransferWithFinalizationInfo packet .ON_TIMEOUT = .ok t)
    (hra : t.IsRollapp = true) (hfin : t.finalized = false)
    (hum : w.unmarshalAck ackBytes = .ok aresp)
    (htryR : (w.IBCModule.OnRecvPacket st packet relayer).1 = some ack)
    (hfail : ack.Success = false)
    (htryA : (w.IBCModule.OnAcknowledgementPacket st packet ackBytes relayer).1 = some eA)
    (htryT : (w.IBCModule.OnTimeoutPacket st packet relayer).1 = some eT) :
    w.OnRecvPacket st packet relayer = (some ack, st)
    ∧ w.OnAcknowledgementPacket st packet ackBytes relayer = (some eA, st)
    ∧ w.OnTimeoutPacket st packet relayer = (some eT, st) := by
  refine ⟨?_, ?_, ?_⟩
  · simp only [IBCMiddleware.OnRecvPacket, hgetR, hra, hfin, htryR]
    simp [hfail]
  · simp only [IBCMiddleware.OnAcknowledgementPacket, hum, hgetA, hra, hfin, htryA]
    simp
  · simp only [IBCMiddleware.OnTimeoutPacket, hgetT, hra, hfin, htryT]
    simp

/-- Witness for C1 at a concrete failing wrapped application. -/
theorem C1_wrapped_failure_propagated_witness :
    wFail.OnRecvPacket st0 pkt0 rl0 = (some (Ack.app false [9]), st0)
    ∧ wFail.OnAcknowledgementPacket st0 pkt0 [1] rl0 = (some "ack failed", st0)
    ∧ wFail.OnTimeoutPacket st0 pkt0 rl0 = (some "timeout failed", st0) :=
  C1_wrapped_failure_propagated wFail st0 pkt0 rl0 t0 (Ack.app false [9]) [1]
    (AckResp.result [1]) "ack failed" "timeout failed"
    rfl rfl rfl rfl rfl rfl rfl rfl rfl rfl

/-- C10: for every ON_RECV packet addressed to a tracked, non-finalized
rollapp, if the wrapped handler's try-execution returns a nil
(asynchronous) acknowledgement, OnRecvPacket returns an error
acknowledgement stating that delayed ack is unsupported, and the state —
in particular the packet store and the address index — is unchanged. -/
theorem C10_async_ack_unsupported (w : IBCMiddleware) (st : MWState) (packet : Packet)
    (relayer : Relayer) (t : TransferData)
    (hgetR : w.GetValidTransferWithFinalizationInfo packet .ON_RECV = .ok t)
    (hra : t.IsRollapp = true) (hfin : t.finalized = false)
    (htryR : (w.IBCModule.OnRecvPacket st packet relayer).1 = none) :
    w.OnRecvPacket st packet relayer =
      (some (.errAck "delayed ack is not supported by the underlying IBC module"), st) := by
  simp only [IBCMiddleware.OnRecvPacket, hgetR, hra, hfin, htryR]
  simp

/-- Witness for C10 at a concrete asynchronous wrapped application. -/
theorem C10_async_ack_unsupported_witness :
    wAsync.OnRecvPacket st0 pkt0 rl0 =
      (some (.errAck "delayed ack is not supported by the underlying IBC module"), st0) :=
  C10_async_ack_unsupported wAsync st0 pkt0 rl0 t0 rfl rfl rfl rfl

/-! ## Helper lemmas: store operations and success-path runs -/

/-- An upserted record is the unique record matching any predicate that
pins down its natural key. -/
theorem SetRollappPacket_filter_eq (ps : List RollappPacket) (p : RollappPacket)
    (g : RollappPacket → Bool) (hgp : g p = true)
    (himp : ∀ q, g q = true → q.RollappPacketKey = p.RollappPacketKey) :
    (SetRollappPacket ps p).filter g = [p] := by
  unfold SetRollappPacket
  rw [List.filter_append]
  have h1 : (ps.filter (fun q => !decide (q.RollappPacketKey = p.RollappPacketKey))).filter g
      = [] := by
    rw [List.filter_eq_nil_iff]
    intro a ha hga
    have hmem := List.mem_filter.mp ha
    have hkey := himp a hga
    simp [hkey] at hmem
  rw [h1]
  simp [hgp]

/-- The upsert key-based index insertion contains the inserted entry. -/
theorem MustSetPendingPacketByAddress_mem (idx : List (String × PacketKey)) (addr : String)
    (k : PacketKey) : (addr, k) ∈ MustSetPendingPacketByAddress idx addr k := by
  by_cases h : (addr, k) ∈ idx
  · simp [MustSetPendingPacketByAddress, h]
  · simp [MustSetPendingPacketByAddress, h]

/-- Components of the record and state produced by `savePacket`. -/
theorem savePacket_spec (st : MWState) (packet : Packet) (t : TransferData) (relayer : Relayer)
    (ty : PacketType) (a : Option (List Nat)) :
    (savePacket st packet t relayer ty a).1 =
      { rollappId := t.rollapp, packet := packet, acknowledgement := a, status := .PENDING,
        relayer := relayer, proofHeight := t.proofHeight, type := ty }
    ∧ (savePacket st packet t relayer ty a).2.packets
        = SetRollappPacket st.packets (savePacket st packet t relayer ty a).1
    ∧ (savePacket st packet t relayer ty a).2.app = st.app
    ∧ (savePacket st packet t relayer ty a).2.pendingIndex
        = MustSetPendingPacketByAddress st.pendingIndex
            (match ty with
             | .ON_RECV => t.receiver
             | .ON_ACK => t.sender
             | .ON_TIMEOUT => t.sender)
            (savePacket st packet t relayer ty a).1.RollappPacketKey := by
  refine ⟨rfl, ?_, rfl, ?_⟩ <;> cases ty <;> rfl

/-- Success-path run of `OnRecvPacket`: the state after the callback is the
`savePacket` state with the EIBC handler applied once to its collaborator
component, and the acknowledgement is deferred unless the EIBC handler
fails. -/
theorem OnRecvPacket_success_run (w : IBCMiddleware) (st : MWState) (packet : Packet)
    (relayer : Relayer) (t : TransferData) (ack : Ack)
    (hget : w.GetValidTransferWithFinalizationInfo packet .ON_RECV = .ok t)
    (hra : t.IsRollapp = true) (hfin : t.finalized = false)
    (htry : (w.IBCModule.OnRecvPacket st packet relayer).1 = some ack)
    (hsucc : ack.Success = true) :
    w.OnRecvPacket st packet relayer =
      (match (w.EIBCDemandOrderHandler (savePacket st packet t relayer .ON_RECV none).2.app
          (savePacket st packet t relayer .ON_RECV none).1 t.fungibleTokenPacketData).1 with
       | some e => some (.errAck ("EIBC demand order handler: " ++ e))
       | none => none,
       { (savePacket st packet t relayer .ON_RECV none).2 with
         app := (w.EIBCDemandOrderHandler (savePacket st packet t relayer .ON_RECV none).2.app
             (savePacket st packet t relayer .ON_RECV none).1 t.fungibleTokenPacketData).2 }) := by
  simp only [IBCMiddleware.OnRecvPacket, hget, hra, hfin, htry, hsucc]
  cases heibc : (w.EIBCDemandOrderHandler (savePacket st packet t relayer .ON_RECV none).2.app
      (savePacket st packet t relayer .ON_RECV none).1 t.fungibleTokenPacketData).1 <;>
    simp [heibc]

/-- Success-path run of `OnAcknowledgementPacket`: the record is saved with
the raw acknowledgement bytes, and the EIBC handler is applied exactly for
an error acknowledgement. -/
theorem OnAcknowledgementPacket_success_run (w : IBCMiddleware) (st : MWState) (packet : Packet)
    (ackBytes : List Nat) (relayer : Relayer) (t : TransferData) (aresp : AckResp)
    (hum : w.unmarshalAck ackBytes = .ok aresp)
    (hget : w.GetValidTransferWithFinalizationInfo packet .ON_ACK = .ok t)
    (hra : t.IsRollapp = true) (hfin : t.finalized = false)
    (htry : (w.IBCModule.OnAcknowledgementPacket st packet ackBytes relayer).1 = none) :
    w.OnAcknowledgementPacket st packet ackBytes relayer =
      (match aresp with
       | .err _ =>
           ((w.EIBCDemandOrderHandler (savePacket st packet t relayer .ON_ACK (some ackBytes)).2.app
               (savePacket st packet t relayer .ON_ACK (some ackBytes)).1
               t.fungibleTokenPacketData).1,
            { (savePacket st packet t relayer .ON_ACK (some ackBytes)).2 with
              app := (w.EIBCDemandOrderHandler
                  (savePacket st packet t relayer .ON_ACK (some ackBytes)).2.app
                  (savePacket st packet t relayer .ON_ACK (some ackBytes)).1
                  t.fungibleTokenPacketData).2 })
       | .result _ => (none, (savePacket st packet t relayer .ON_ACK (some ackBytes)).2)) := by
  simp only [IBCMiddleware.OnAcknowledgementPacket, hum, hget, hra, hfin, htry]
  cases aresp <;> simp

/-- Success-path run of `OnTimeoutPacket`: the record is saved and the EIBC
handler is applied exactly once, its error becoming the callback result. -/
theorem OnTimeoutPacket_success_run (w : IBCMiddleware) (st : MWState) (packet : Packet)
    (relayer : Relayer) (t : TransferData)
    (hget : w.GetValidTransferWithFinalizationInfo packet .ON_TIMEOUT = .ok t)
    (hra : t.IsRollapp = true) (hfin : t.finalized = false)
    (htry : (w.IBCModule.OnTimeoutPacket st packet relayer).1 = none) :
    w.OnTimeoutPacket st packet relayer =
      ((w.EIBCDemandOrderHandler (savePacket st packet t relayer .ON_TIMEOUT none).2.app
          (savePacket st packet t relayer .ON_TIMEOUT none).1 t.fungibleTokenPacketData).1,
       { (savePacket st packet t relayer .ON_TIMEOUT none).2 with
         app := (w.EIBCDemandOrderHandler (savePacket st packet t relayer .ON_TIMEOUT none).2.app
             (savePacket st packet t relayer .ON_TIMEOUT none).1 t.fungibleTokenPacketData).2 }) := by
  simp only [IBCMiddleware.OnTimeoutPacket, hget, hra, hfin, htry]
  simp

/-- C3: for every packet whose target is not a tracked rollapp, or whose
proof height is already finalized, each of the three callbacks delegates
directly to the wrapped handler and returns its result unmodified; given
that the wrapped handler (the transfer application, which per the spec
never creates packet records) leaves the packet store and address index
alone, no PacketRecord and no index entry is created even on success. -/
theorem C3_fast_path_bypass (w : IBCMiddleware) (st : MWState) (packet : Packet)
    (relayer : Relayer) (t : TransferData) (ackBytes : List Nat) (aresp : AckResp)
    (hgetR : w.GetValidTransferWithFinalizationInfo packet .ON_RECV = .ok t)
    (hgetA : w.GetValidTransferWithFinalizationInfo packet .ON_ACK = .ok t)
    (hgetT : w.GetValidTransferWithFinalizationInfo packet .ON_TIMEOUT = .ok t)
    (hum : w.unmarshalAck ackBytes = .ok aresp)
    (hbypass : t.IsRollapp = false ∨ t.finalized = true)
    (hfrR : ((w.IBCModule.OnRecvPacket st packet relayer).2).packets = st.packets
      ∧ ((w.IBCModule.OnRecvPacket st packet relayer).2).pendingIndex = st.pendingIndex)
    (hfrA : ((w.IBCModule.OnAcknowledgementPacket st packet ackBytes relayer).2).packets
        = st.packets
      ∧ ((w.IBCModule.OnAcknowledgementPacket st packet ackBytes relayer).2).pendingIndex
        = st.pendingIndex)
    (hfrT : ((w.IBCModule.OnTimeoutPacket st packet relayer).2).packets = st.packets
      ∧ ((w.IBCModule.OnTimeoutPacket st packet relayer).2).pendingIndex = st.pendingIndex) :
    (w.OnRecvPacket st packet relayer = w.IBCModule.OnRecvPacket st packet relayer
      ∧ (w.OnRecvPacket st packet relayer).2.packets = st.packets
      ∧ (w.OnRecvPacket st packet relayer).2.pendingIndex = st.pendingIndex)
    ∧ (w.OnAcknowledgementPacket st packet ackBytes relayer
        = w.IBCModule.OnAcknowledgementPacket st packet ackBytes relayer
      ∧ (w.OnAcknowledgementPacket st packet ackBytes relayer).2.packets = st.packets
      ∧ (w.OnAcknowledgementPacket st packet ackBytes relayer).2.pendingIndex = st.pendingIndex)
    ∧ (w.OnTimeoutPacket st packet relayer = w.IBCModule.OnTimeoutPacket st packet relayer
      ∧ (w.OnTimeoutPacket st packet relayer).2.packets = st.packets
      ∧ (w.OnTimeoutPacket st packet relayer).2.pendingIndex = st.pendingIndex) := by
  have hcond : (!t.IsRollapp || t.finalized) = true := by
    rcases hbypass with h | h <;> simp [h]
  have h1 : w.OnRecvPacket st packet relayer = w.IBCModule.OnRecvPacket st packet relayer := by
    simp only [IBCMiddleware.OnRecvPacket, hgetR, hcond, if_true]
  have h2 : w.OnAcknowledgementPacket st packet ackBytes relayer
      = w.IBCModule.OnAcknowledgementPacket st packet ackBytes relayer := by
    simp only [IBCMiddleware.OnAcknowledgementPacket, hum, hgetA, hcond, if_true]
  have h3 : w.OnTimeoutPacket st packet relayer = w.IBCModule.OnTimeoutPacket st packet relayer := by
    simp only [IBCMiddleware.OnTimeoutPacket, hgetT, hcond, if_true]
  exact ⟨⟨h1, by rw [h1]; exact hfrR.1, by rw [h1]; exact hfrR.2⟩,
    ⟨h2, by rw [h2]; exact hfrA.1, by rw [h2]; exact hfrA.2⟩,
    ⟨h3, by rw [h3]; exact hfrT.1, by rw [h3]; exact hfrT.2⟩⟩

/-- Witness for C3 at a concrete already-finalized transfer. -/
theorem C3_fast_path_bypass_witness :
    (wByp.OnRecvPacket st0 pkt0 rl0 = wByp.IBCModule.OnRecvPacket st0 pkt0 rl0
      ∧ (wByp.OnRecvPacket st0 pkt0 rl0).2.packets = st0.packets
      ∧ (wByp.OnRecvPacket st0 pkt0 rl0).2.pendingIndex = st0.pendingIndex)
    ∧ (wByp.OnAcknowledgementPacket st0 pkt0 [1] rl0
        = wByp.IBCModule.OnAcknowledgementPacket st0 pkt0 [1] rl0
      ∧ (wByp.OnAcknowledgementPacket st0 pkt0 [1] rl0).2.packets = st0.packets
      ∧ (wByp.OnAcknowledgementPacket st0 pkt0 [1] rl0).2.pendingIndex = st0.pendingIndex)
    ∧ (wByp.OnTimeoutPacket st0 pkt0 rl0 = wByp.IBCModule.OnTimeoutPacket st0 pkt0 rl0
      ∧ (wByp.OnTimeoutPacket st0 pkt0 rl0).2.packets = st0.packets
      ∧ (wByp.OnTimeoutPacket st0 pkt0 rl0).2.pendingIndex = st0.pendingIndex) :=
  C3_fast_path_bypass wByp st0 pkt0 rl0 tFin [1] (AckResp.result [1])
    rfl rfl rfl rfl (Or.inr rfl) ⟨rfl, rfl⟩ ⟨rfl, rfl⟩ ⟨rfl, rfl⟩

/-- C2: for every packet addressed to a tracked, non-finalized rollapp
whose wrapped-handler try-execution succeeds, exactly one PacketRecord is
persisted with status PENDING (the store holds exactly one record with the
packet's route+sequence+event-type key, namely the saved one), and a
pending-index entry is inserted under the transfer's receiver address for
ON_RECV and under the sender address for ON_ACK and ON_TIMEOUT. -/
theorem C2_pending_record_and_index (w : IBCMiddleware) (st : MWState) (packet : Packet)
    (relayer : Relayer) (t : TransferData) (ack : Ack) (ackBytes : List Nat) (aresp : AckResp)
    (hgetR : w.GetValidTransferWithFinalizationInfo packet .ON_RECV = .ok t)
    (hgetA : w.GetValidTransferWithFinalizationInfo packet .ON_ACK = .ok t)
    (hgetT : w.GetValidTransferWithFinalizationInfo packet .ON_TIMEOUT = .ok t)
    (hra : t.IsRollapp = true) (hfin : t.finalized = false)
    (hum : w.unmarshalAck ackBytes = .ok aresp)
    (htryR : (w.IBCModule.OnRecvPacket st packet relayer).1 = some ack)
    (hsucc : ack.Success = true)
    (htryA : (w.IBCModule.OnAcknowledgementPacket st packet ackBytes relayer).1 = none)
    (htryT : (w.IBCModule.OnTimeoutPacket st packet relayer).1 = none) :
    ((w.OnRecvPacket st packet relayer).2.packets.filter
        (fun q => decide (q.RollappPacketKey
              = (savePacket st packet t relayer .ON_RECV none).1.RollappPacketKey
            ∧ q.status = Status.PENDING))
        = [(savePacket st packet t relayer .ON_RECV none).1]
      ∧ (t.receiver, (savePacket st packet t relayer .ON_RECV none).1.RollappPacketKey)
          ∈ (w.OnRecvPacket st packet relayer).2.pendingIndex)
    ∧ ((w.OnAcknowledgementPacket st packet ackBytes relayer).2.packets.filter
        (fun q => decide (q.RollappPacketKey
              = (savePacket st packet t relayer .ON_ACK (some ackBytes)).1.RollappPacketKey
            ∧ q.status = Status.PENDING))
        = [(savePacket st packet t relayer .ON_ACK (some ackBytes)).1]
      ∧ (t.sender, (savePacket st packet t relayer .ON_ACK (some ackBytes)).1.RollappPacketKey)
          ∈ (w.OnAcknowledgementPacket st packet ackBytes relayer).2.pendingIndex)
    ∧ ((w.OnTimeoutPacket st packet relayer).2.packets.filter
        (fun q => decide (q.RollappPacketKey
              = (savePacket st packet t relayer .ON_TIMEOUT none).1.RollappPacketKey
            ∧ q.status = Status.PENDING))
        = [(savePacket st packet t relayer .ON_TIMEOUT none).1]
      ∧ (t.sender, (savePacket st packet t relayer .ON_TIMEOUT none).1.RollappPacketKey)
          ∈ (w.OnTimeoutPacket st packet relayer).2.pendingIndex) := by
  have hR := OnRecvPacket_success_run w st packet relayer t ack hgetR hra hfin htryR hsucc
  have hA := OnAcknowledgementPacket_success_run w st packet ackBytes relayer t aresp
    hum hgetA hra hfin htryA
  have hT := OnTimeoutPacket_success_run w st packet relayer t hgetT hra hfin htryT
  refine ⟨⟨?_, ?_⟩, ⟨?_, ?_⟩, ⟨?_, ?_⟩⟩
  · obtain ⟨hrec, hpack, happ, hidx⟩ := savePacket_spec st packet t relayer .ON_RECV none
    rw [hR]
    show ((savePacket st packet t relayer .ON_RECV none).2.packets.filter _) = _
    rw [hpack]
    refine SetRollappPacket_filter_eq _ _ _ ?_ (fun q h => (of_decide_eq_true h).1)
    rw [hrec]
    simp [hrec]
  · obtain ⟨hrec, hpack, happ, hidx⟩ := savePacket_spec st packet t relayer .ON_RECV none
    rw [hR]
    show _ ∈ (savePacket st packet t relayer .ON_RECV none).2.pendingIndex
    rw [hidx]
    exact MustSetPendingPacketByAddress_mem _ _ _
  · obtain ⟨hrec, hpack, happ, hidx⟩ := savePacket_spec st packet t relayer .ON_ACK (some ackBytes)
    rw [hA]
    cases aresp <;>
      · show ((savePacket st packet t relayer .ON_ACK (some ackBytes)).2.packets.filter _) = _
        rw [hpack]
        refine SetRollappPacket_filter_eq _ _ _ ?_ (fun q h => (of_decide_eq_true h).1)
        rw [hrec]
        simp [hrec]
  · obtain ⟨hrec, hpack, happ, hidx⟩ := savePacket_spec st packet t relayer .ON_ACK (some ackBytes)
    rw [hA]
    cases aresp <;>
      · show _ ∈ (savePacket st packet t relayer .ON_ACK (some ackBytes)).2.pendingIndex
        rw [hidx]
        exact MustSetPendingPacketByAddress_mem _ _ _
  · obtain ⟨hrec, hpack, happ, hidx⟩ := savePacket_spec st packet t relayer .ON_TIMEOUT none
    rw [hT]
    show ((savePacket st packet t relayer .ON_TIMEOUT none).2.packets.filter _) = _
    rw [hpack]
    refine SetRollappPacket_filter_eq _ _ _ ?_ (fun q h => (of_decide_eq_true h).1)
    rw [hrec]
    simp [hrec]
  · obtain ⟨hrec, hpack, happ, hidx⟩ := savePacket_spec st packet t relayer .ON_TIMEOUT none
    rw [hT]
    show _ ∈ (savePacket st packet t relayer .ON_TIMEOUT none).2.pendingIndex
    rw [hidx]
    exact MustSetPendingPacketByAddress_mem _ _ _

/-- Witness for C2 at a concrete succeeding wrapped application. -/
theorem C2_pending_record_and_index_witness :
    ((wOk.OnRecvPacket st0 pkt0 rl0).2.packets.filter
        (fun q => decide (q.RollappPacketKey
              = (savePacket st0 pkt0 t0 rl0 .ON_RECV none).1.RollappPacketKey
            ∧ q.status = Status.PENDING))
        = [(savePacket st0 pkt0 t0 rl0 .ON_RECV none).1]
      ∧ (t0.receiver, (savePacket st0 pkt0 t0 rl0 .ON_RECV none).1.RollappPacketKey)
          ∈ (wOk.OnRecvPacket st0 pkt0 rl0).2.pendingIndex)
    ∧ ((wOk.OnAcknowledgementPacket st0 pkt0 [1] rl0).2.packets.filter
        (fun q => decide (q.RollappPacketKey
              = (savePacket st0 pkt0 t0 rl0 .ON_ACK (some [1])).1.RollappPacketKey
            ∧ q.status = Status.PENDING))
        = [(savePacket st0 pkt0 t0 rl0 .ON_ACK (some [1])).1]
      ∧ (t0.sender, (savePacket st0 pkt0 t0 rl0 .ON_ACK (some [1])).1.RollappPacketKey)
          ∈ (wOk.OnAcknowledgementPacket st0 pkt0 [1] rl0).2.pendingIndex)
    ∧ ((wOk.OnTimeoutPacket st0 pkt0 rl0).2.packets.filter
        (fun q => decide (q.RollappPacketKey
              = (savePacket st0 pkt0 t0 rl0 .ON_TIMEOUT none).1.RollappPacketKey
            ∧ q.status = Status.PENDING))
        = [(savePacket st0 pkt0 t0 rl0 .ON_TIMEOUT none).1]
      ∧ (t0.sender, (savePacket st0 pkt0 t0 rl0 .ON_TIMEOUT none).1.RollappPacketKey)
          ∈ (wOk.OnTimeoutPacket st0 pkt0 rl0).2.pendingIndex) :=
  C2_pending_record_and_index wOk st0 pkt0 rl0 t0 (Ack.app true [4]) [1] (AckResp.result [1])
    rfl rfl rfl rfl rfl rfl rfl rfl rfl rfl

/-- Middleware over a tracked, non-finalized rollapp whose EIBC demand
order handler fails. -/
def wEibcFail : IBCMiddleware :=
  { IBCModule := mOk
    GetValidTransferWithFinalizationInfo := fun _ _ => .ok t0
    EIBCDemandOrderHandler := fun app _ _ => (some "boom", app)
    unmarshalAck := cdc0 }

/-- C7: for every ON_TIMEOUT packet addressed to a tracked, non-finalized
rollapp whose wrapped-handler try-execution succeeds, the EIBC demand
order handler is invoked exactly once, unconditionally: the callback's
result is exactly one application of the handler to the collaborator state
of the saved-packet state (which coincides with the initial collaborator
state), even though the wrapped handler reported no error. -/
theorem C7_timeout_always_invokes_eibc (w : IBCMiddleware) (st : MWState) (packet : Packet)
    (relayer : Relayer) (t : TransferData)
    (hget : w.GetValidTransferWithFinalizationInfo packet .ON_TIMEOUT = .ok t)
    (hra : t.IsRollapp = true) (hfin : t.finalized = false)
    (htry : (w.IBCModule.OnTimeoutPacket st packet relayer).1 = none) :
    w.OnTimeoutPacket st packet relayer =
      ((w.EIBCDemandOrderHandler (savePacket st packet t relayer .ON_TIMEOUT none).2.app
          (savePacket st packet t relayer .ON_TIMEOUT none).1 t.fungibleTokenPacketData).1,
       { (savePacket st packet t relayer .ON_TIMEOUT none).2 with
         app := (w.EIBCDemandOrderHandler (savePacket st packet t relayer .ON_TIMEOUT none).2.app
             (savePacket st packet t relayer .ON_TIMEOUT none).1 t.fungibleTokenPacketData).2 })
    ∧ (savePacket st packet t relayer .ON_TIMEOUT none).2.app = st.app :=
  ⟨OnTimeoutPacket_success_run w st packet relayer t hget hra hfin htry,
   (savePacket_spec st packet t relayer .ON_TIMEOUT none).2.2.1⟩

/-- Witness for C7: the concrete run applies the marker-appending EIBC
handler exactly once. -/
theorem C7_timeout_always_invokes_eibc_witness :
    wOk.OnTimeoutPacket st0 pkt0 rl0 =
      ((wOk.EIBCDemandOrderHandler (savePacket st0 pkt0 t0 rl0 .ON_TIMEOUT none).2.app
          (savePacket st0 pkt0 t0 rl0 .ON_TIMEOUT none).1 t0.fungibleTokenPacketData).1,
       { (savePacket st0 pkt0 t0 rl0 .ON_TIMEOUT none).2 with
         app := (wOk.EIBCDemandOrderHandler (savePacket st0 pkt0 t0 rl0 .ON_TIMEOUT none).2.app
             (savePacket st0 pkt0 t0 rl0 .ON_TIMEOUT none).1 t0.fungibleTokenPacketData).2 })
    ∧ (savePacket st0 pkt0 t0 rl0 .ON_TIMEOUT none).2.app = st0.app :=
  C7_timeout_always_invokes_eibc wOk st0 pkt0 rl0 t0 rfl rfl rfl rfl

/-- C6: for every ON_ACK packet addressed to a tracked, non-finalized
rollapp whose wrapped-handler try-execution succeeds, the EIBC demand
order handler is invoked if and only if the decoded acknowledgement is an
error acknowledgement: on an error acknowledgement the result is exactly
one application of the handler, and on a success (result) acknowledgement
the callback returns success with the saved-packet state, the collaborator
state left untouched. -/
theorem C6_ack_eibc_iff_error_ack (w : IBCMiddleware) (st : MWState) (packet : Packet)
    (relayer : Relayer) (t : TransferData) (ackBytes : List Nat)
    (hget : w.GetValidTransferWithFinalizationInfo packet .ON_ACK = .ok t)
    (hra : t.IsRollapp = true) (hfin : t.finalized = false)
    (htry : (w.IBCModule.OnAcknowledgementPacket st packet ackBytes relayer).1 = none) :
    (∀ m, w.unmarshalAck ackBytes = .ok (.err m) →
      w.OnAcknowledgementPacket st packet ackBytes relayer =
        ((w.EIBCDemandOrderHandler
            (savePacket st packet t relayer .ON_ACK (some ackBytes)).2.app
            (savePacket st packet t relayer .ON_ACK (some ackBytes)).1
            t.fungibleTokenPacketData).1,
         { (savePacket st packet t relayer .ON_ACK (some ackBytes)).2 with
           app := (w.EIBCDemandOrderHandler
               (savePacket st packet t relayer .ON_ACK (some ackBytes)).2.app
               (savePacket st packet t relayer .ON_ACK (some ackBytes)).1
               t.fungibleTokenPacketData).2 }))
    ∧ (∀ d, w.unmarshalAck ackBytes = .ok (.result d) →
      w.OnAcknowledgementPacket st packet ackBytes relayer =
        (none, (savePacket st packet t relayer .ON_ACK (some ackBytes)).2)
      ∧ (w.OnAcknowledgementPacket st packet ackBytes relayer).2.app = st.app) := by
  constructor
  · intro m hum
    exact OnAcknowledgementPacket_success_run w st packet ackBytes relayer t (.err m)
      hum hget hra hfin htry
  · intro d hum
    have hA := OnAcknowledgementPacket_success_run w st packet ackBytes relayer t (.result d)
      hum hget hra hfin htry
    refine ⟨hA, ?_⟩
    rw [hA]
    exact (savePacket_spec st packet t relayer .ON_ACK (some ackBytes)).2.2.1

/-- Witness for C6 at a concrete error acknowledgement (the codec decodes
`[0]` as an error acknowledgement). -/
theorem C6_ack_eibc_iff_error_ack_witness :
    (∀ m, wOk.unmarshalAck [0] = .ok (.err m) →
      wOk.OnAcknowledgementPacket st0 pkt0 [0] rl0 =
        ((wOk.EIBCDemandOrderHandler
            (savePacket st0 pkt0 t0 rl0 .ON_ACK (some [0])).2.app
            (savePacket st0 pkt0 t0 rl0 .ON_ACK (some [0])).1
            t0.fungibleTokenPacketData).1,
         { (savePacket st0 pkt0 t0 rl0 .ON_ACK (some [0])).2 with
           app := (wOk.EIBCDemandOrderHandler
               (savePacket st0 pkt0 t0 rl0 .ON_ACK (some [0])).2.app
               (savePacket st0 pkt0 t0 rl0 .ON_ACK (some [0])).1
               t0.fungibleTokenPacketData).2 }))
    ∧ (∀ d, wOk.unmarshalAck [0] = .ok (.result d) →
      wOk.OnAcknowledgementPacket st0 pkt0 [0] rl0 =
        (none, (savePacket st0 pkt0 t0 rl0 .ON_ACK (some [0])).2)
      ∧ (wOk.OnAcknowledgementPacket st0 pkt0 [0] rl0).2.app = st0.app) :=
  C6_ack_eibc_iff_error_ack wOk st0 pkt0 rl0 t0 [0] rfl rfl rfl rfl

/-- C5 counterexample: a concrete ON_RECV run on a tracked, non-finalized
rollapp whose wrapped-handler try-execution succeeds but whose EIBC demand
order handler fails returns an error acknowledgement, not the deferred
(nil) acknowledgement the claim promises. -/
theorem C5_counterexample :
    wEibcFail.GetValidTransferWithFinalizationInfo pkt0 .ON_RECV = .ok t0
    ∧ t0.IsRollapp = true
    ∧ t0.finalized = false
    ∧ (wEibcFail.IBCModule.OnRecvPacket st0 pkt0 rl0).1 = some (Ack.app true [4])
    ∧ (Ack.app true [4]).Success = true
    ∧ (wEibcFail.OnRecvPacket st0 pkt0 rl0).1
        = some (Ack.errAck "EIBC demand order handler: boom")
    ∧ (wEibcFail.OnRecvPacket st0 pkt0 rl0).1 ≠ none := by
  refine ⟨rfl, rfl, rfl, rfl, rfl, rfl, ?_⟩
  simp [show (wEibcFail.OnRecvPacket st0 pkt0 rl0).1
      = some (Ack.errAck "EIBC demand order handler: boom") from rfl]

/-- C5 amended: for every ON_RECV packet addressed to a tracked,
non-finalized rollapp whose wrapped-handler try-execution succeeds and
whose EIBC demand order handler invocation succeeds, OnRecvPacket returns
no synchronous acknowledgement (nil signals a deferred acknowledgement). -/
theorem C5_recv_success_defers_ack (w : IBCMiddleware) (st : MWState) (packet : Packet)
    (relayer : Relayer) (t : TransferData) (ack : Ack)
    (hget : w.GetValidTransferWithFinalizationInfo packet .ON_RECV = .ok t)
    (hra : t.IsRollapp = true) (hfin : t.finalized = false)
    (htry : (w.IBCModule.OnRecvPacket st packet relayer).1 = some ack)
    (hsucc : ack.Success = true)
    (heibc : (w.EIBCDemandOrderHandler (savePacket st packet t relayer .ON_RECV none).2.app
        (savePacket st packet t relayer .ON_RECV none).1 t.fungibleTokenPacketData).1 = none) :
    (w.OnRecvPacket st packet relayer).1 = none := by
  rw [OnRecvPacket_success_run w st packet relayer t ack hget hra hfin htry hsucc]
  simp [heibc]

/-- Witness for the amended C5 at a concrete succeeding run. -/
theorem C5_recv_success_defers_ack_witness :
    (wOk.OnRecvPacket st0 pkt0 rl0).1 = none :=
  C5_recv_success_defers_ack wOk st0 pkt0 rl0 t0 (Ack.app true [4]) rfl rfl rfl rfl rfl rfl

/-- Any record in an upserted store was already stored or is the upserted
record. -/
theorem SetRollappPacket_mem (ps : List RollappPacket) (p : RollappPacket)
    (q : RollappPacket) (hq : q ∈ SetRollappPacket ps p) : q ∈ ps ∨ q = p := by
  unfold SetRollappPacket at hq
  rcases List.mem_append.mp hq with h | h
  · exact Or.inl (List.mem_filter.mp h).1
  · exact Or.inr (List.mem_singleton.mp h)

/-- C4 counterexample: the claim states that records created by ON_ACK or
ON_TIMEOUT events carry the acknowledgement payload.  In a concrete
ON_TIMEOUT run on a tracked, non-finalized rollapp with a succeeding
wrapped handler, the created record has event type ON_TIMEOUT and carries
no acknowledgement payload (the source passes nil to savePacket), so the
claimed biconditional fails. -/
theorem C4_counterexample :
    ¬ (∀ rec ∈ (wOk.OnTimeoutPacket st0 pkt0 rl0).2.packets,
        (rec.acknowledgement.isSome = true
          ↔ (rec.type = PacketType.ON_ACK ∨ rec.type = PacketType.ON_TIMEOUT))) := by
  decide

/-- C4 amended: every PacketRecord created by the middleware (every record
in the post-state store that was not in the pre-state store) carries the
acknowledgement payload bytes if and only if it originates from an ON_ACK
event; records created by ON_RECV and ON_TIMEOUT events carry no
acknowledgement payload. -/
theorem C4_ack_payload_only_on_ack (w : IBCMiddleware) (st : MWState) (packet : Packet)
    (relayer : Relayer) (t : TransferData) (ack : Ack) (ackBytes : List Nat) (aresp : AckResp)
    (hgetR : w.GetValidTransferWithFinalizationInfo packet .ON_RECV = .ok t)
    (hgetA : w.GetValidTransferWithFinalizationInfo packet .ON_ACK = .ok t)
    (hgetT : w.GetValidTransferWithFinalizationInfo packet .ON_TIMEOUT = .ok t)
    (hra : t.IsRollapp = true) (hfin : t.finalized = false)
    (hum : w.unmarshalAck ackBytes = .ok aresp)
    (htryR : (w.IBCModule.OnRecvPacket st packet relayer).1 = some ack)
    (hsucc : ack.Success = true)
    (htryA : (w.IBCModule.OnAcknowledgementPacket st packet ackBytes relayer).1 = none)
    (htryT : (w.IBCModule.OnTimeoutPacket st packet relayer).1 = none) :
    (∀ q ∈ (w.OnRecvPacket st packet relayer).2.packets,
        q ∈ st.packets ∨ (q.type = PacketType.ON_RECV ∧ q.acknowledgement = none))
    ∧ (∀ q ∈ (w.OnAcknowledgementPacket st packet ackBytes relayer).2.packets,
        q ∈ st.packets ∨ (q.type = PacketType.ON_ACK ∧ q.acknowledgement = some ackBytes))
    ∧ (∀ q ∈ (w.OnTimeoutPacket st packet relayer).2.packets,
        q ∈ st.packets ∨ (q.type = PacketType.ON_TIMEOUT ∧ q.acknowledgement = none)) := by
  have hR := OnRecvPacket_success_run w st packet relayer t ack hgetR hra hfin htryR hsucc
  have hA := OnAcknowledgementPacket_success_run w st packet ackBytes relayer t aresp
    hum hgetA hra hfin htryA
  have hT := OnTimeoutPacket_success_run w st packet relayer t hgetT hra hfin htryT
  refine ⟨?_, ?_, ?_⟩
  · intro q hq
    rw [hR] at hq
    have hq2 : q ∈ SetRollappPacket st.packets (savePacket st packet t relayer .ON_RECV none).1 := by
      rw [← (savePacket_spec st packet t relayer .ON_RECV none).2.1]
      exact hq
    rcases SetRollappPacket_mem _ _ _ hq2 with h | h
    · exact Or.inl h
    · subst h
      exact Or.inr ⟨rfl, rfl⟩
  · intro q hq
    rw [hA] at hq
    have hq2 : q ∈ SetRollappPacket st.packets
        (savePacket st packet t relayer .ON_ACK (some ackBytes)).1 := by
      rw [← (savePacket_spec st packet t relayer .ON_ACK (some ackBytes)).2.1]
      cases aresp <;> exact hq
    rcases SetRollappPacket_mem _ _ _ hq2 with h | h
    · exact Or.inl h
    · subst h
      exact Or.inr ⟨rfl, rfl⟩
  · intro q hq
    rw [hT] at hq
    have hq2 : q ∈ SetRollappPacket st.packets
        (savePacket st packet t relayer .ON_TIMEOUT none).1 := by
      rw [← (savePacket_spec st packet t relayer .ON_TIMEOUT none).2.1]
      exact hq
    rcases SetRollappPacket_mem _ _ _ hq2 with h | h
    · exact Or.inl h
    · subst h
      exact Or.inr ⟨rfl, rfl⟩

/-- Witness for the amended C4 at a concrete succeeding run. -/
theorem C4_ack_payload_only_on_ack_witness :
    (∀ q ∈ (wOk.OnRecvPacket st0 pkt0 rl0).2.packets,
        q ∈ st0.packets ∨ (q.type = PacketType.ON_RECV ∧ q.acknowledgement = none))
    ∧ (∀ q ∈ (wOk.OnAcknowledgementPacket st0 pkt0 [1] rl0).2.packets,
        q ∈ st0.packets ∨ (q.type = PacketType.ON_ACK ∧ q.acknowledgement = some [1]))
    ∧ (∀ q ∈ (wOk.OnTimeoutPacket st0 pkt0 rl0).2.packets,
        q ∈ st0.packets ∨ (q.type = PacketType.ON_TIMEOUT ∧ q.acknowledgement = none)) :=
  C4_ack_payload_only_on_ack wOk st0 pkt0 rl0 t0 (Ack.app true [4]) [1] (AckResp.result [1])
    rfl rfl rfl rfl rfl rfl rfl rfl rfl rfl

/-- A wrapped application returning the same results as `mOk` at every
input but performing different (heavier) state writes, including wiping
the packet store in its own view. -/
def mOk2 : IBCModule :=
  { OnRecvPacket := fun st _ _ => (some (.app true [4]), { st with app := st.app ++ [1, 1, 1] })
    OnAcknowledgementPacket := fun st _ _ _ => (none, { st with app := [] })
    OnTimeoutPacket := fun st _ _ => (none, { st with packets := [], app := st.app ++ [3, 3] }) }

/-- `wOk` with the wrapped application replaced by `mOk2`. -/
def wOk2 : IBCMiddleware :=
  { IBCModule := mOk2
    GetValidTransferWithFinalizationInfo := fun _ _ => .ok t0
    EIBCDemandOrderHandler := fun app _ _ => (none, app ++ [9])
    unmarshalAck := cdc0 }

/-- C9: in all three callbacks the wrapped handler's try-execution runs
against a discardable view that is never committed: two middlewares that
share every collaborator except the wrapped application, whose wrapped
callbacks report the same results (acknowledgement/error) at the given
input while writing arbitrarily different state, produce identical
callback results and identical final durable state (the saved record,
its pending-index entry, and the EIBC handler's effect being the only
durable changes). -/
theorem C9_cache_ctx_discards_wrapped_writes (w1 w2 : IBCMiddleware) (st : MWState)
    (packet : Packet) (relayer : Relayer) (t : TransferData) (ackBytes : List Nat)
    (hG : w1.GetValidTransferWithFinalizationInfo = w2.GetValidTransferWithFinalizationInfo)
    (hE : w1.EIBCDemandOrderHandler = w2.EIBCDemandOrderHandler)
    (hU : w1.unmarshalAck = w2.unmarshalAck)
    (hgetR : w1.GetValidTransferWithFinalizationInfo packet .ON_RECV = .ok t)
    (hgetA : w1.GetValidTransferWithFinalizationInfo packet .ON_ACK = .ok t)
    (hgetT : w1.GetValidTransferWithFinalizationInfo packet .ON_TIMEOUT = .ok t)
    (hra : t.IsRollapp = true) (hfin : t.finalized = false)
    (hackR : (w1.IBCModule.OnRecvPacket st packet relayer).1
        = (w2.IBCModule.OnRecvPacket st packet relayer).1)
    (hackA : (w1.IBCModule.OnAcknowledgementPacket st packet ackBytes relayer).1
        = (w2.IBCModule.OnAcknowledgementPacket st packet ackBytes relayer).1)
    (hackT : (w1.IBCModule.OnTimeoutPacket st packet relayer).1
        = (w2.IBCModule.OnTimeoutPacket st packet relayer).1) :
    w1.OnRecvPacket st packet relayer = w2.OnRecvPacket st packet relayer
    ∧ w1.OnAcknowledgementPacket st packet ackBytes relayer
        = w2.OnAcknowledgementPacket st packet ackBytes relayer
    ∧ w1.OnTimeoutPacket st packet relayer = w2.OnTimeoutPacket st packet relayer := by
  have hgetR2 : w2.GetValidTransferWithFinalizationInfo packet .ON_RECV = .ok t := hG ▸ hgetR
  have hgetA2 : w2.GetValidTransferWithFinalizationInfo packet .ON_ACK = .ok t := hG ▸ hgetA
  have hgetT2 : w2.GetValidTransferWithFinalizationInfo packet .ON_TIMEOUT = .ok t := hG ▸ hgetT
  refine ⟨?_, ?_, ?_⟩
  · simp only [IBCMiddleware.OnRecvPacket, hgetR, hgetR2, hra, hfin, hackR, hE]
    simp
  · simp only [IBCMiddleware.OnAcknowledgementPacket, hU, hgetA, hgetA2, hra, hfin, hackA, hE]
    simp
  · simp only [IBCMiddleware.OnTimeoutPacket, hgetT, hgetT2, hra, hfin, hackT, hE]
    simp

/-- Witness for C9: the two concrete wrapped applications `mOk` and `mOk2`
write different state in their try-execution (one even wipes the packet
store in its view) yet the middleware runs coincide. -/
theorem C9_cache_ctx_discards_wrapped_writes_witness :
    wOk.OnRecvPacket st0 pkt0 rl0 = wOk2.OnRecvPacket st0 pkt0 rl0
    ∧ wOk.OnAcknowledgementPacket st0 pkt0 [1] rl0 = wOk2.OnAcknowledgementPacket st0 pkt0 [1] rl0
    ∧ wOk.OnTimeoutPacket st0 pkt0 rl0 = wOk2.OnTimeoutPacket st0 pkt0 rl0 :=
  C9_cache_ctx_discards_wrapped_writes wOk wOk2 st0 pkt0 rl0 t0 [1]
    rfl rfl rfl rfl rfl rfl rfl rfl rfl rfl rfl

/-! ## Pruning lemmas -/

/-- The pruning sweep removes exactly the first `n` FINALIZED records in
store order. -/
theorem deleteFinalizedUpTo_filter_fin (n : Nat) (ps : List RollappPacket) :
    (deleteFinalizedUpTo n ps).filter (fun p => decide (p.status = Status.FINALIZED))
      = (ps.filter (fun p => decide (p.status = Status.FINALIZED))).drop n := by
  induction ps generalizing n with
  | nil => simp [deleteFinalizedUpTo]
  | cons p ps ih =>
    cases n with
    | zero => simp [deleteFinalizedUpTo]
    | succ n =>
      by_cases h : p.status = Status.FINALIZED
      · simp [deleteFinalizedUpTo, h, ih]
      · simp [deleteFinalizedUpTo, h, ih]

/-- The pruning sweep never touches records that are not FINALIZED. -/
theorem deleteFinalizedUpTo_filter_of_never_fin (f : RollappPacket → Bool)
    (hf : ∀ p, p.status = Status.FINALIZED → f p = false) (n : Nat)
    (ps : List RollappPacket) :
    (deleteFinalizedUpTo n ps).filter f = ps.filter f := by
  induction ps generalizing n with
  | nil => simp [deleteFinalizedUpTo]
  | cons p ps ih =>
    cases n with
    | zero => simp [deleteFinalizedUpTo]
    | succ n =>
      by_cases h : p.status = Status.FINALIZED
      · simp [deleteFinalizedUpTo, h, ih, hf p h]
      · by_cases hfp : f p <;> simp [deleteFinalizedUpTo, h, ih, hfp]

/-- C8: for every pruning pass over a store whose FINALIZED records are
iterated in ascending proof-height order: given N FINALIZED records and a
configured per-tick limit L < N, a pass whose epoch identifier matches the
configured one deletes exactly L records — the L oldest by proof height —
leaving N - L FINALIZED records, and never deletes a PENDING record; a
pass with a mismatched epoch identifier deletes zero records. -/
theorem C8_pruning_respects_limit (params : Params) (packets : List RollappPacket)
    (e : String) (N L : Nat)
    (hN : countFinalized packets = N)
    (hL : params.deletePacketsEpochLimit = L)
    (hLN : L < N)
    (hsorted : (packets.filter (fun p => decide (p.status = Status.FINALIZED))).Pairwise
        (fun a b => a.proofHeight ≤ b.proofHeight))
    (hmismatch : e ≠ params.epochIdentifier) :
    countFinalized (AfterEpochEnd params params.epochIdentifier packets) = N - L
    ∧ (AfterEpochEnd params params.epochIdentifier packets).filter
        (fun p => decide (p.status = Status.PENDING))
      = packets.filter (fun p => decide (p.status = Status.PENDING))
    ∧ (AfterEpochEnd params params.epochIdentifier packets).filter
        (fun p => decide (p.status = Status.FINALIZED))
      = (packets.filter (fun p => decide (p.status = Status.FINALIZED))).drop L
    ∧ (∀ d ∈ (packets.filter (fun p => decide (p.status = Status.FINALIZED))).take L,
        ∀ s ∈ (AfterEpochEnd params params.epochIdentifier packets).filter
            (fun p => decide (p.status = Status.FINALIZED)),
          d.proofHeight ≤ s.proofHeight)
    ∧ AfterEpochEnd params e packets = packets := by
  have hmatch : AfterEpochEnd params params.epochIdentifier packets
      = deleteFinalizedUpTo L packets := by
    simp [AfterEpochEnd, hL]
  have hfin := deleteFinalizedUpTo_filter_fin L packets
  refine ⟨?_, ?_, ?_, ?_, ?_⟩
  · rw [countFinalized, hmatch, hfin, List.length_drop]
    rw [countFinalized] at hN
    rw [hN]
  · rw [hmatch]
    exact deleteFinalizedUpTo_filter_of_never_fin _ (fun p h => by simp [h]) L packets
  · rw [hmatch]
    exact hfin
  · intro d hd s hs
    rw [hmatch, hfin] at hs
    have hsplit := hsorted
    rw [← List.take_append_drop L
      (packets.filter (fun p => decide (p.status = Status.FINALIZED)))] at hsplit
    exact (List.pairwise_append.mp hsplit).2.2 d hd s hs
  · simp [AfterEpochEnd, hmismatch]

/-- Concrete record constructor for the pruning witness. -/
def mkTestPacket (seq h : Nat) (s : Status) : RollappPacket :=
  { rollappId := "testRollappId"
    packet := { pkt0 with sequence := seq }
    acknowledgement := none
    status := s
    relayer := rl0
    proofHeight := h
    type := .ON_RECV }

/-- Concrete pruning parameters: epoch identifier "minute", limit 2. -/
def params0 : Params := { epochIdentifier := "minute", deletePacketsEpochLimit := 2 }

/-- Concrete store: three FINALIZED records (ascending proof height) and
two PENDING records. -/
def pruneStore0 : List RollappPacket :=
  [mkTestPacket 1 2 .FINALIZED, mkTestPacket 2 4 .FINALIZED, mkTestPacket 3 6 .FINALIZED,
   mkTestPacket 4 8 .PENDING, mkTestPacket 5 10 .PENDING]

/-- Witness for C8: N = 3, L = 2, matching tick "minute", mismatched tick
"hour". -/
theorem C8_pruning_respects_limit_witness :
    countFinalized (AfterEpochEnd params0 params0.epochIdentifier pruneStore0) = 1
    ∧ (AfterEpochEnd params0 params0.epochIdentifier pruneStore0).filter
        (fun p => decide (p.status = Status.PENDING))
      = pruneStore0.filter (fun p => decide (p.status = Status.PENDING))
    ∧ (AfterEpochEnd params0 params0.epochIdentifier pruneStore0).filter
        (fun p => decide (p.status = Status.FINALIZED))
      = (pruneStore0.filter (fun p => decide (p.status = Status.FINALIZED))).drop 2
    ∧ (∀ d ∈ (pruneStore0.filter (fun p => decide (p.status = Status.FINALIZED))).take 2,
        ∀ s ∈ (AfterEpochEnd params0 params0.epochIdentifier pruneStore0).filter
            (fun p => decide (p.status = Status.FINALIZED)),
          d.proofHeight ≤ s.proofHeight)
    ∧ AfterEpochEnd params0 "hour" pruneStore0 = pruneStore0 :=
  C8_pruning_respects_limit params0 pruneStore0 "hour" 3 2
    (by decide) rfl (by decide) (by decide) (by decide)

end DelayedAck
